import Mathlib

/-!
Verification of the Dual-Axis Keystroke Analyzer engine (src/analyzer.js):
the Event Stream Normalizer (`extractMetrics`), the Baseline Calibrator
(`getCalibrationData`) and the Dual-Axis Scorer (`calculateDualAxis`).
JavaScript numbers are modelled as rationals; JS `null` results become
`Option.none`; optional object fields become `Option`; out-of-range array
reads (`undefined` in JS) are modelled with `List.getD` defaults chosen so
that the string comparisons and truthiness tests of the source behave
identically.
-/

namespace KeyAnalyzer

/-- clamp(val, min, max) = Math.max(min, Math.min(max, val)). -/
def clamp (val lo hi : ℚ) : ℚ := max lo (min hi val)

/-- normalize(value, mean, sd): 0.5 when sd is zero, otherwise the z-score
rescaled by 1/4, shifted by 0.5 and clamped to the unit interval. -/
def normalize (value mean sd : ℚ) : ℚ :=
  if sd = 0 then 0.5 else clamp ((value - mean) / sd / 4 + 0.5) 0 1

/-- normalizeInverted(value, mean, sd) = 1 - normalize(value, mean, sd). -/
def normalizeInverted (value mean sd : ℚ) : ℚ := 1 - normalize value mean sd

/-- Insert a rational into an already ascending list (helper realising the
JS numeric sort used by calculateMedian). -/
def insertAsc (x : ℚ) : List ℚ → List ℚ
  | [] => [x]
  | y :: ys => if x ≤ y then x :: y :: ys else y :: insertAsc x ys

/-- Ascending numeric sort, as in arr.sort((a, b) => a - b). -/
def sortAsc (l : List ℚ) : List ℚ := l.foldr insertAsc []

/-- Sum of a list of rationals, as in reduce((a, b) => a + b, 0). -/
def listSum (l : List ℚ) : ℚ := l.foldl (· + ·) 0

/-- calculateMedian(arr): 0 on an empty array, the middle element of the
sorted array when the length is odd, the mean of the two middle elements
when it is even. -/
def calculateMedian (arr : List ℚ) : ℚ :=
  if arr.length = 0 then 0
  else
    let sorted := sortAsc arr
    let mid := arr.length / 2
    if arr.length % 2 ≠ 0 then sorted.getD mid 0
    else (sorted.getD (mid - 1) 0 + sorted.getD mid 0) / 2

/-- A population benchmark: a (mean, standard deviation) pair. -/
structure Benchmark where
  mean : ℚ
  sd : ℚ
deriving DecidableEq

/-- The BENCHMARKS constant of the source. -/
structure BenchmarkTable where
  pause_time_mean : Benchmark
  pause_before_sentences : Benchmark
  pause_before_words : Benchmark
  total_insertions : Benchmark
  num_insertions : Benchmark
  total_deletions_words : Benchmark
  num_revisions : Benchmark
  product_process_ratio : Benchmark
  pause_within_words_count : Benchmark
  rburst_length_median : Benchmark
  characters_per_minute : Benchmark
deriving DecidableEq

/-- Default population benchmarks (label values copied from the source). -/
def BENCHMARKS : BenchmarkTable where
  pause_time_mean := ⟨1.646, 0.783⟩
  pause_before_sentences := ⟨12.682, 29.433⟩
  pause_before_words := ⟨1.398, 0.825⟩
  total_insertions := ⟨307.96, 344.11⟩
  num_insertions := ⟨32.95, 36.005⟩
  total_deletions_words := ⟨115.218, 130.943⟩
  num_revisions := ⟨125.95, 85.112⟩
  product_process_ratio := ⟨0.824, 0.111⟩
  pause_within_words_count := ⟨408.688, 245.747⟩
  rburst_length_median := ⟨6.27, 6.431⟩
  characters_per_minute := ⟨200, 75⟩

/-- The Keystroke Event Log. `Activity`, `TextChange` and `FinalProduct`
are the fields the source tests for presence (`keylog.Activity ? ... :`,
`typeof keylog.FinalProduct === "string"`), hence `Option`. -/
structure Keylog where
  EventID : List ℕ
  EventTime : List ℚ
  Activity : Option (List String)
  Output : List String
  TextChange : Option (List String)
  CursorPosition : List ℕ
  TextContent : List String
  FinalProduct : Option String
deriving DecidableEq, Inhabited

/-- keylog.EventTime[i] (0 when out of range). -/
def eventTime (k : Keylog) (i : ℕ) : ℚ := k.EventTime.getD i 0

/-- keylog.Output[i] ("" models undefined: equal to none of the compared
key labels, and not in any membership list, exactly like undefined). -/
def outputAt (k : Keylog) (i : ℕ) : String := k.Output.getD i ""

/-- keylog.Activity ? keylog.Activity[i] : 'Input'. -/
def activityAt (k : Keylog) (i : ℕ) : String :=
  match k.Activity with
  | some l => l.getD i ""
  | none => "Input"

/-- keylog.TextChange ? keylog.TextChange[i] : ''. -/
def textChangeAt (k : Keylog) (i : ℕ) : String :=
  match k.TextChange with
  | some l => l.getD i ""
  | none => ""

/-- keylog.CursorPosition[i]. -/
def cursorAt (k : Keylog) (i : ℕ) : ℕ := k.CursorPosition.getD i 0

/-- keylog.TextContent[i] ("" models undefined: both are falsy and have
length 0 under the source's `snapshot ? snapshot.length : 0`). -/
def snapshotAt (k : Keylog) (i : ℕ) : String := k.TextContent.getD i ""

/-- The inter-keystroke interval EventTime[i] - EventTime[i-1]. -/
def ikiAt (k : Keylog) (i : ℕ) : ℚ := eventTime k i - eventTime k (i - 1)

/-- keylog.TextContent[keylog.TextContent.length - 1] with the source's
empty-sequence and falsy fallbacks to "". -/
def lastSnapshot (k : Keylog) : String :=
  if 0 < k.TextContent.length then k.TextContent.getD (k.TextContent.length - 1) ""
  else ""

/-- The boundary outputs list ['Space', '.', ',', '!', '?', 'Shift',
'Backspace'] of the within-word pause test. -/
def boundaryOutputs : List String := ["Space", ".", ",", "!", "?", "Shift", "Backspace"]

/-- The Extracted Metrics record returned by extractMetrics. -/
structure Metrics where
  product_process_ratio : ℚ
  num_revisions : ℚ
  num_deletions : ℚ
  total_deletions_words : ℚ
  total_insertions : ℚ
  num_insertions : ℚ
  paste_events : ℚ
  paste_characters : ℚ
  rburst_length_median : ℚ
  characters_per_minute : ℚ
  pause_time_mean : ℚ
  pause_within_words_count : ℚ
  pause_before_words : ℚ
  pause_before_sentences : ℚ
  durationSeconds : ℚ
  finalLength : ℚ
  totalEvents : ℚ
deriving DecidableEq

/-- The mutable locals of extractMetrics's single forward pass. -/
structure LoopState where
  paste_events : ℚ
  paste_characters : ℚ
  total_insertions : ℚ
  num_insertions : ℚ
  num_deletions : ℚ
  total_deletions_words : ℚ
  num_revisions : ℚ
  pauses_before_words : List ℚ
  pauses_before_sentences : List ℚ
  pauses_within_words : ℚ
  bursts : List ℚ
  currentBurstStartTime : ℚ
deriving DecidableEq

/-- The locals before the pass: all counters 0, all lists empty, and
currentBurstStartTime = keylog.EventTime[0]. -/
def initLoopState (k : Keylog) : LoopState where
  paste_events := 0
  paste_characters := 0
  total_insertions := 0
  num_insertions := 0
  num_deletions := 0
  total_deletions_words := 0
  num_revisions := 0
  pauses_before_words := []
  pauses_before_sentences := []
  pauses_within_words := 0
  bursts := []
  currentBurstStartTime := eventTime k 0

/-- Paste accounting: the `if (activity === 'Paste')` block of the loop
body. -/
def pasteAccount (k : Keylog) (s : LoopState) (i : ℕ) : LoopState :=
  if activityAt k i = "Paste" then
    { s with
      paste_events := s.paste_events + 1
      paste_characters := s.paste_characters +
        (if textChangeAt k i ≠ "" ∧ textChangeAt k i ≠ "NoChange"
         then ((textChangeAt k i).length : ℚ) else 0) }
  else s

/-- Deletion/revision accounting: the `Remove/Cut` / `Backspace` block of
the loop body. -/
def deletionAccount (k : Keylog) (s : LoopState) (i : ℕ) : LoopState :=
  if activityAt k i = "Remove/Cut" ∨ outputAt k i = "Backspace" then
    { s with
      num_deletions := s.num_deletions + 1
      num_revisions := s.num_revisions + 1
      total_deletions_words := s.total_deletions_words + 0.2 }
  else s

/-- Non-linear-insertion accounting: the prevCursor < prevLength block of
the loop body. -/
def insertionAccount (k : Keylog) (s : LoopState) (i : ℕ) : LoopState :=
  if activityAt k i = "Input" ∧ cursorAt k (i - 1) < (snapshotAt k (i - 1)).length then
    { s with
      num_insertions := s.num_insertions + 1
      total_insertions := s.total_insertions + 1
      num_revisions := s.num_revisions + 1 }
  else s

/-- Pause-context classification: the `if (iki >= PAUSE_THRESHOLD_MS)`
block of the loop body. -/
def pauseAccount (k : Keylog) (s : LoopState) (i : ℕ) : LoopState :=
  if 200 ≤ ikiAt k i then
    if outputAt k (i - 1) = "Space" ∨ i = 1 then
      { s with pauses_before_words := s.pauses_before_words ++ [ikiAt k i] }
    else if outputAt k (i - 1) ∈ ([".", "!", "?"] : List String) then
      { s with pauses_before_sentences := s.pauses_before_sentences ++ [ikiAt k i] }
    else if outputAt k (i - 1) ∉ boundaryOutputs ∧ outputAt k i ∉ boundaryOutputs then
      { s with pauses_within_words := s.pauses_within_words + 1 }
    else s
  else s

/-- The loop body before the burst logic: paste, deletion, insertion and
pause-context accounting, in source order. -/
def preBurstState (k : Keylog) (s : LoopState) (i : ℕ) : LoopState :=
  pauseAccount k (insertionAccount k (deletionAccount k (pasteAccount k s i) i) i) i

/-- One iteration of the forward pass of extractMetrics (loop body for
index i, 1 ≤ i < eventsCount): the accounting of preBurstState followed
by the burst logic. -/
def loopStep (k : Keylog) (s : LoopState) (i : ℕ) : LoopState :=
  if activityAt k i = "Remove/Cut" ∨ outputAt k i = "Backspace" ∨ 2000 ≤ ikiAt k i then
    { preBurstState k s i with
      bursts :=
        if 0 < (eventTime k (i - 1) - (preBurstState k s i).currentBurstStartTime) / 1000
        then (preBurstState k s i).bursts ++
          [(eventTime k (i - 1) - (preBurstState k s i).currentBurstStartTime) / 1000]
        else (preBurstState k s i).bursts
      currentBurstStartTime := eventTime k i }
  else preBurstState k s i

/-- The locals after the whole forward pass (i = 1 .. eventsCount - 1). -/
def finalLoopState (k : Keylog) : LoopState :=
  (List.range' 1 (k.EventID.length - 1)).foldl (loopStep k) (initLoopState k)

/-- The recorded burst durations after the pass, including the final
trailing-burst flush. -/
def burstsOf (k : Keylog) : List ℚ :=
  let st := finalLoopState k
  let finalBurstLength := (eventTime k (k.EventID.length - 1) - st.currentBurstStartTime) / 1000
  if 0 < finalBurstLength then st.bursts ++ [finalBurstLength] else st.bursts

/-- Mean of a list of durations in ms, converted to seconds; 0 when the
list is empty (the source's `l.length > 0 ? sum/l.length/1000 : 0`). -/
def meanMsToSec (l : List ℚ) : ℚ :=
  if 0 < l.length then listSum l / l.length / 1000 else 0

/-- extractMetrics(keylog): the Event Stream Normalizer. Returns none
(JS null) when the log has fewer than 2 events. -/
def extractMetrics (keylog : Keylog) : Option Metrics :=
  let eventsCount := keylog.EventID.length
  if eventsCount < 2 then none
  else
    let durationMs := eventTime keylog (eventsCount - 1) - eventTime keylog 0
    let durationSeconds := durationMs / 1000
    let finalText :=
      match keylog.FinalProduct with
      | some s => s
      | none => lastSnapshot keylog
    let finalLength : ℚ := finalText.length
    let ikis := (List.range' 1 (eventsCount - 1)).map (fun i => ikiAt keylog i)
    let pauses := ikis.filter (fun iki => decide (200 ≤ iki))
    let pause_time_mean := meanMsToSec pauses
    let st := finalLoopState keylog
    let bursts := burstsOf keylog
    let pause_before_words_mean := meanMsToSec st.pauses_before_words
    let pause_before_sentences_mean := meanMsToSec st.pauses_before_sentences
    let total_keystrokes0 : ℚ :=
      match keylog.Activity with
      | some l => (l.filter (fun a => decide (a = "Input"))).length
      | none => eventsCount
    let total_keystrokes := if total_keystrokes0 = 0 then 1 else total_keystrokes0
    some
      { product_process_ratio := finalLength / total_keystrokes
        num_revisions := st.num_revisions
        num_deletions := st.num_deletions
        total_deletions_words := st.total_deletions_words
        total_insertions := st.total_insertions
        num_insertions := st.num_insertions
        paste_events := st.paste_events
        paste_characters := st.paste_characters
        rburst_length_median := calculateMedian bursts
        characters_per_minute := if 0 < durationSeconds then finalLength / durationSeconds * 60 else 0
        pause_time_mean := pause_time_mean
        pause_within_words_count := st.pauses_within_words
        pause_before_words := pause_before_words_mean
        pause_before_sentences := pause_before_sentences_mean
        durationSeconds := durationSeconds
        finalLength := finalLength
        totalEvents := eventsCount }

/-- The final text as getCalibrationData resolves it: the FinalProduct
field when it is a nonempty string, else the last snapshot. -/
def resolvedFinalTextCalib (k : Keylog) : String :=
  match k.FinalProduct with
  | some s => if s = "" then lastSnapshot k else s
  | none => lastSnapshot k

/-- The scan for the first snapshot index whose text is truthy and at
least 200 characters long; returns (that index) + 1. -/
def findCalibIndex : List String → ℕ → Option ℕ
  | [], _ => none
  | s :: rest, i =>
    if s ≠ "" ∧ 200 ≤ s.length then some (i + 1) else findCalibIndex rest (i + 1)

/-- calibEventIndex: initialised to keylog.EventID.length, replaced by
i + 1 at the first snapshot of length ≥ 200. -/
def calibIndex (k : Keylog) : ℕ :=
  match findCalibIndex k.TextContent 0 with
  | some j => j
  | none => k.EventID.length

/-- The fresh slicedKeylog object right after the copy loop (every array
field sliced to calibEventIndex, FinalProduct still the input's). -/
def calibSliceCopy (k : Keylog) : Keylog :=
  let idx := calibIndex k
  { EventID := k.EventID.take idx
    EventTime := k.EventTime.take idx
    Activity := k.Activity.map (fun l => l.take idx)
    Output := k.Output.take idx
    TextChange := k.TextChange.map (fun l => l.take idx)
    CursorPosition := k.CursorPosition.take idx
    TextContent := k.TextContent.take idx
    FinalProduct := k.FinalProduct }

/-- The calibration slice after `slicedKeylog.FinalProduct =
slicedKeylog.TextContent[last] || ""`, the one write of the calibrator,
performed on the copy. -/
def calibSlice (k : Keylog) : Keylog :=
  { calibSliceCopy k with FinalProduct := some (lastSnapshot (calibSliceCopy k)) }

/-- The Calibration Baseline record. -/
structure CalibrationData where
  cpm_mean : ℚ
  cpm_sd : ℚ
  rburst_mean : ℚ
  rburst_sd : ℚ
deriving DecidableEq

/-- The baseline record built from the slice's metrics: the personal
means, with spreads scaling the benchmark coefficient of variation. -/
def baselineFrom (baseMetrics : Metrics) : CalibrationData where
  cpm_mean := baseMetrics.characters_per_minute
  cpm_sd := baseMetrics.characters_per_minute *
    (BENCHMARKS.characters_per_minute.sd / BENCHMARKS.characters_per_minute.mean)
  rburst_mean := baseMetrics.rburst_length_median
  rburst_sd := baseMetrics.rburst_length_median *
    (BENCHMARKS.rburst_length_median.sd / BENCHMARKS.rburst_length_median.mean)

/-- getCalibrationData(keylog): the Baseline Calibrator. -/
def getCalibrationData (keylog : Keylog) : Option CalibrationData :=
  if keylog.EventID.length < 2 then none
  else if (resolvedFinalTextCalib keylog).length < 200 then none
  else
    match extractMetrics (calibSlice keylog) with
    | none => none
    | some baseMetrics =>
      if baseMetrics.characters_per_minute = 0 then none
      else some (baselineFrom baseMetrics)

/-- Heap read: the object a reference points to (a default empty object
models a dangling reference, whose EventID.length is 0). -/
def heapGet (h : List Keylog) (r : ℕ) : Keylog := h.getD r default

/-- The heap after the calibrator's allocation and single write: the
slice copy is allocated at the fresh address `h.length`, and the
FinalProduct assignment of line 184 is a store to that address. -/
def calibHeapAfter (h : List Keylog) (r : ℕ) : List Keylog :=
  (h ++ [calibSliceCopy (heapGet h r)]).set h.length
    { heapGet (h ++ [calibSliceCopy (heapGet h r)]) h.length with
      FinalProduct :=
        some (lastSnapshot (heapGet (h ++ [calibSliceCopy (heapGet h r)]) h.length)) }

/-- getCalibrationData under an explicit object heap, making the
calibrator's writes visible: the input log lives at address r, the slice
copy at the fresh address h.length, and the single FinalProduct
assignment targets the fresh address. Returns the JS result together
with the heap after the call. -/
def getCalibrationDataHeap (h : List Keylog) (r : ℕ) :
    Option CalibrationData × List Keylog :=
  if (heapGet h r).EventID.length < 2 then (none, h)
  else if (resolvedFinalTextCalib (heapGet h r)).length < 200 then (none, h)
  else
    match extractMetrics (heapGet (calibHeapAfter h r) h.length) with
    | none => (none, calibHeapAfter h r)
    | some baseMetrics =>
      if baseMetrics.characters_per_minute = 0 then (none, calibHeapAfter h r)
      else (some (baselineFrom baseMetrics), calibHeapAfter h r)

/-- Group weights of the Weight Configuration. -/
structure GroupWeights where
  pathShape : ℚ
  revisionActivity : ℚ
  fluency : ℚ
  pauseBehavior : ℚ
  unconstrainedAction : ℚ
deriving DecidableEq

/-- Revision-activity sub-weights. -/
structure RevWeights where
  num_revisions : ℚ
  num_deletions : ℚ
  total_deletions_words : ℚ
  total_insertions : ℚ
  num_insertions : ℚ
deriving DecidableEq

/-- Fluency sub-weights. -/
structure FluWeights where
  rburst_length_median : ℚ
  characters_per_minute : ℚ
deriving DecidableEq

/-- Pause-behavior sub-weights. -/
structure PbWeights where
  pause_time_mean : ℚ
  pause_within_words_count : ℚ
  pause_before_words : ℚ
  pause_before_sentences : ℚ
deriving DecidableEq

/-- Paste tuning constants. -/
structure PasteWeights where
  BASE_JUMP : ℚ
  CHAR_SCALE : ℚ
deriving DecidableEq

/-- The Weight Configuration. -/
structure Weights where
  groups : GroupWeights
  rev : RevWeights
  flu : FluWeights
  pb : PbWeights
  paste : PasteWeights
deriving DecidableEq

/-- Every weight of the configuration is non-negative. -/
def Weights.NonNeg (w : Weights) : Prop :=
  0 ≤ w.groups.pathShape ∧ 0 ≤ w.groups.revisionActivity ∧ 0 ≤ w.groups.fluency ∧
  0 ≤ w.groups.pauseBehavior ∧ 0 ≤ w.groups.unconstrainedAction ∧
  0 ≤ w.rev.num_revisions ∧ 0 ≤ w.rev.num_deletions ∧ 0 ≤ w.rev.total_deletions_words ∧
  0 ≤ w.rev.total_insertions ∧ 0 ≤ w.rev.num_insertions ∧
  0 ≤ w.flu.rburst_length_median ∧ 0 ≤ w.flu.characters_per_minute ∧
  0 ≤ w.pb.pause_time_mean ∧ 0 ≤ w.pb.pause_within_words_count ∧
  0 ≤ w.pb.pause_before_words ∧ 0 ≤ w.pb.pause_before_sentences ∧
  0 ≤ w.paste.BASE_JUMP ∧ 0 ≤ w.paste.CHAR_SCALE

instance (w : Weights) : Decidable w.NonNeg := by
  unfold Weights.NonNeg; infer_instance

/-- DEFAULT_WEIGHTS of the source. -/
def DEFAULT_WEIGHTS : Weights where
  groups := ⟨0.60, 0.40, 0.50, 0.50, 1.0⟩
  rev := ⟨0.35, 0.25, 0.20, 0.10, 0.10⟩
  flu := ⟨0.5, 0.5⟩
  pb := ⟨0.40, 0.30, 0.20, 0.10⟩
  paste := ⟨0.12, 0.0002⟩

/-- The five intermediate component values of the Dual-Axis Score. -/
structure Components where
  pathShape : ℚ
  revBase : ℚ
  fluencyBase : ℚ
  pbBase : ℚ
  pasteScore : ℚ
deriving DecidableEq

/-- The Dual-Axis Score. -/
structure DualAxisResult where
  linearityScore : ℚ
  spontaneityScore : ℚ
  components : Components
deriving DecidableEq

/-- calculateDualAxis(metrics, weights, calibrationData): the Dual-Axis
Scorer. The JS `if (!metrics) return null` guard corresponds to the
caller holding a Metrics record at all. -/
def calculateDualAxis (metrics : Metrics) (weights : Weights)
    (calibrationData : Option CalibrationData) : DualAxisResult :=
  let pathShape := normalize metrics.product_process_ratio
    BENCHMARKS.product_process_ratio.mean BENCHMARKS.product_process_ratio.sd
  let rev1 := normalizeInverted metrics.num_revisions
    BENCHMARKS.num_revisions.mean BENCHMARKS.num_revisions.sd
  let rev2 := normalizeInverted metrics.num_deletions
    BENCHMARKS.num_revisions.mean BENCHMARKS.num_revisions.sd
  let rev3 := normalizeInverted metrics.total_deletions_words
    BENCHMARKS.total_deletions_words.mean BENCHMARKS.total_deletions_words.sd
  let rev4 := normalizeInverted metrics.total_insertions
    BENCHMARKS.total_insertions.mean BENCHMARKS.total_insertions.sd
  let rev5 := normalizeInverted metrics.num_insertions
    BENCHMARKS.num_insertions.mean BENCHMARKS.num_insertions.sd
  let revBase := rev1 * weights.rev.num_revisions + rev2 * weights.rev.num_deletions +
    rev3 * weights.rev.total_deletions_words + rev4 * weights.rev.total_insertions +
    rev5 * weights.rev.num_insertions
  let linearity := pathShape * weights.groups.pathShape + revBase * weights.groups.revisionActivity
  let cpm_mean :=
    match calibrationData with
    | some c => c.cpm_mean
    | none => BENCHMARKS.characters_per_minute.mean
  let cpm_sd :=
    match calibrationData with
    | some c => if c.cpm_sd = 0 then 0.001 else c.cpm_sd
    | none => BENCHMARKS.characters_per_minute.sd
  let rburst_mean :=
    match calibrationData with
    | some c => c.rburst_mean
    | none => BENCHMARKS.rburst_length_median.mean
  let rburst_sd :=
    match calibrationData with
    | some c => if c.rburst_sd = 0 then 0.001 else c.rburst_sd
    | none => BENCHMARKS.rburst_length_median.sd
  let flu1 := normalize metrics.rburst_length_median rburst_mean rburst_sd
  let flu2 := normalize metrics.characters_per_minute cpm_mean cpm_sd
  let fluencyBase := flu1 * weights.flu.rburst_length_median +
    flu2 * weights.flu.characters_per_minute
  let pb1 := normalizeInverted metrics.pause_time_mean
    BENCHMARKS.pause_time_mean.mean BENCHMARKS.pause_time_mean.sd
  let pb2 := normalizeInverted metrics.pause_within_words_count
    BENCHMARKS.pause_within_words_count.mean BENCHMARKS.pause_within_words_count.sd
  let pb3 := normalizeInverted metrics.pause_before_words
    BENCHMARKS.pause_before_words.mean BENCHMARKS.pause_before_words.sd
  let pb4 := normalizeInverted metrics.pause_before_sentences
    BENCHMARKS.pause_before_sentences.mean BENCHMARKS.pause_before_sentences.sd
  let pbBase := pb1 * weights.pb.pause_time_mean + pb2 * weights.pb.pause_within_words_count +
    pb3 * weights.pb.pause_before_words + pb4 * weights.pb.pause_before_sentences
  let spontaneityBase := fluencyBase * weights.groups.fluency + pbBase * weights.groups.pauseBehavior
  let pasteScore := clamp (metrics.paste_events * weights.paste.BASE_JUMP *
    (1 + metrics.paste_characters * weights.paste.CHAR_SCALE)) 0 0.40
  let spontaneity := clamp (spontaneityBase + pasteScore * weights.groups.unconstrainedAction) 0 1
  { linearityScore := clamp linearity 0 1 * 100
    spontaneityScore := spontaneity * 100
    components :=
      { pathShape := pathShape
        revBase := revBase
        fluencyBase := fluencyBase
        pbBase := pbBase
        pasteScore := pasteScore } }

/-- A 200-character text, for logs that reach the calibration threshold. -/
def s200 : String := String.mk (List.replicate 200 'a')

/-- A 3-event log whose burst boundary (gap of 2400 ms at event 2) falls
on an event whose own timestamp (2500) differs from the previous event's
timestamp (100). -/
def c2Log : Keylog where
  EventID := [1, 2, 3]
  EventTime := [0, 100, 2500]
  Activity := some ["Input", "Input", "Input"]
  Output := ["a", "b", "c"]
  TextChange := some ["a", "b", "c"]
  CursorPosition := [1, 2, 3]
  TextContent := ["a", "ab", "abc"]
  FinalProduct := none

/-- The burst-segmentation scenario log: 5 Input events at timestamps
[0, 100, 300, 2500, 2600] ms, no deletions. -/
def c3Log : Keylog where
  EventID := [1, 2, 3, 4, 5]
  EventTime := [0, 100, 300, 2500, 2600]
  Activity := some ["Input", "Input", "Input", "Input", "Input"]
  Output := ["a", "b", "c", "d", "e"]
  TextChange := some ["a", "b", "c", "d", "e"]
  CursorPosition := [1, 2, 3, 4, 5]
  TextContent := ["a", "ab", "abc", "abcd", "abcde"]
  FinalProduct := none

/-- A log whose FinalProduct has 200 characters while every snapshot is
empty: the calibration slice then has empty final text, hence a zero
typing rate. -/
def c7Log : Keylog where
  EventID := [1, 2]
  EventTime := [0, 100]
  Activity := some ["Input", "Input"]
  Output := ["a", "b"]
  TextChange := some ["a", "b"]
  CursorPosition := [0, 0]
  TextContent := ["", ""]
  FinalProduct := some s200

/-- A 2-event log reaching 200 characters in 120 s: the calibration slice
has typing rate 200 / 120 × 60 = 100 characters per minute. -/
def c8Log : Keylog where
  EventID := [1, 2]
  EventTime := [0, 120000]
  Activity := some ["Input", "Input"]
  Output := ["a", "b"]
  TextChange := some ["a", "b"]
  CursorPosition := [1, 200]
  TextContent := ["a", s200]
  FinalProduct := none

/-- The baseline the Calibrator derives from c8Log. -/
def c8Baseline : CalibrationData where
  cpm_mean := 100
  cpm_sd := 37.5
  rburst_mean := 0
  rburst_sd := 0

/-- A log whose FinalProduct has 200 characters while no snapshot
reaches 200 characters. -/
def c10Log : Keylog where
  EventID := [1, 2]
  EventTime := [0, 100]
  Activity := some ["Input", "Input"]
  Output := ["a", "b"]
  TextChange := some ["a", "b"]
  CursorPosition := [1, 2]
  TextContent := ["a", "ab"]
  FinalProduct := some s200

/-- A concrete Extracted Metrics record, for instantiating the score
bound theorem. -/
def exMetricsC1 : Metrics where
  product_process_ratio := 0.8
  num_revisions := 10
  num_deletions := 5
  total_deletions_words := 1
  total_insertions := 3
  num_insertions := 2
  paste_events := 1
  paste_characters := 20
  rburst_length_median := 2.5
  characters_per_minute := 180
  pause_time_mean := 1.2
  pause_within_words_count := 3
  pause_before_words := 1.1
  pause_before_sentences := 2.2
  durationSeconds := 60
  finalLength := 300
  totalEvents := 50

/-- A concrete Extracted Metrics record, for instantiating the paste
score monotonicity theorem. -/
def exMetricsC6 : Metrics where
  product_process_ratio := 0.5
  num_revisions := 4
  num_deletions := 2
  total_deletions_words := 0.4
  total_insertions := 1
  num_insertions := 1
  paste_events := 2
  paste_characters := 50
  rburst_length_median := 3
  characters_per_minute := 120
  pause_time_mean := 0.9
  pause_within_words_count := 2
  pause_before_words := 0.7
  pause_before_sentences := 1.4
  durationSeconds := 30
  finalLength := 60
  totalEvents := 40

/-! Helper lemmas. -/

theorem le_clamp (v lo hi : ℚ) : lo ≤ clamp v lo hi := le_max_left _ _

theorem clamp_le_hi (v lo hi : ℚ) (h : lo ≤ hi) : clamp v lo hi ≤ hi :=
  max_le h (min_le_left _ _)

theorem clamp_mono (v w lo hi : ℚ) (h : v ≤ w) : clamp v lo hi ≤ clamp w lo hi :=
  max_le_max le_rfl (min_le_min le_rfl h)

theorem unit_clamp_score_bounds (x : ℚ) :
    0 ≤ clamp x 0 1 * 100 ∧ clamp x 0 1 * 100 ≤ 100 := by
  have h1 := le_clamp x 0 1
  have h2 := clamp_le_hi x 0 1 (by norm_num)
  constructor <;> nlinarith

theorem pasteAccount_bursts_start (k : Keylog) (s : LoopState) (i : ℕ) :
    (pasteAccount k s i).bursts = s.bursts ∧
      (pasteAccount k s i).currentBurstStartTime = s.currentBurstStartTime := by
  unfold pasteAccount; split_ifs <;> exact ⟨rfl, rfl⟩

theorem deletionAccount_bursts_start (k : Keylog) (s : LoopState) (i : ℕ) :
    (deletionAccount k s i).bursts = s.bursts ∧
      (deletionAccount k s i).currentBurstStartTime = s.currentBurstStartTime := by
  unfold deletionAccount; split_ifs <;> exact ⟨rfl, rfl⟩

theorem insertionAccount_bursts_start (k : Keylog) (s : LoopState) (i : ℕ) :
    (insertionAccount k s i).bursts = s.bursts ∧
      (insertionAccount k s i).currentBurstStartTime = s.currentBurstStartTime := by
  unfold insertionAccount; split_ifs <;> exact ⟨rfl, rfl⟩

theorem pauseAccount_bursts_start (k : Keylog) (s : LoopState) (i : ℕ) :
    (pauseAccount k s i).bursts = s.bursts ∧
      (pauseAccount k s i).currentBurstStartTime = s.currentBurstStartTime := by
  unfold pauseAccount; split_ifs <;> exact ⟨rfl, rfl⟩

theorem preBurstState_bursts (k : Keylog) (s : LoopState) (i : ℕ) :
    (preBurstState k s i).bursts = s.bursts := by
  unfold preBurstState
  rw [(pauseAccount_bursts_start _ _ _).1, (insertionAccount_bursts_start _ _ _).1,
    (deletionAccount_bursts_start _ _ _).1, (pasteAccount_bursts_start _ _ _).1]

theorem preBurstState_start (k : Keylog) (s : LoopState) (i : ℕ) :
    (preBurstState k s i).currentBurstStartTime = s.currentBurstStartTime := by
  unfold preBurstState
  rw [(pauseAccount_bursts_start _ _ _).2, (insertionAccount_bursts_start _ _ _).2,
    (deletionAccount_bursts_start _ _ _).2, (pasteAccount_bursts_start _ _ _).2]

/-- C1: for every extracted-metrics record, every weight configuration
with non-negative weights and every optional baseline, linearityScore
and spontaneityScore lie in [0, 100] (both are a clamp to [0, 1] scaled
by 100). -/
theorem dualAxis_scores_in_0_100 (m : Metrics) (w : Weights) (c : Option CalibrationData)
    (hw : w.NonNeg) :
    0 ≤ (calculateDualAxis m w c).linearityScore ∧
      (calculateDualAxis m w c).linearityScore ≤ 100 ∧
      0 ≤ (calculateDualAxis m w c).spontaneityScore ∧
      (calculateDualAxis m w c).spontaneityScore ≤ 100 :=
  ⟨(unit_clamp_score_bounds _).1, (unit_clamp_score_bounds _).2,
    (unit_clamp_score_bounds _).1, (unit_clamp_score_bounds _).2⟩

/-- Witness for C1 at a concrete metrics record and DEFAULT_WEIGHTS. -/
theorem dualAxis_scores_in_0_100_witness :
    DEFAULT_WEIGHTS.NonNeg ∧
      (0 ≤ (calculateDualAxis exMetricsC1 DEFAULT_WEIGHTS none).linearityScore ∧
        (calculateDualAxis exMetricsC1 DEFAULT_WEIGHTS none).linearityScore ≤ 100 ∧
        0 ≤ (calculateDualAxis exMetricsC1 DEFAULT_WEIGHTS none).spontaneityScore ∧
        (calculateDualAxis exMetricsC1 DEFAULT_WEIGHTS none).spontaneityScore ≤ 100) :=
  ⟨by with_unfolding_all decide, dualAxis_scores_in_0_100 exMetricsC1 DEFAULT_WEIGHTS none (by with_unfolding_all decide)⟩

/-- C3: on the 5-event Input-only log with timestamps
[0, 100, 300, 2500, 2600] ms the Normalizer records exactly the two
bursts 0.3 s and 0.1 s. -/
theorem c3Log_two_bursts : burstsOf c3Log = [3/10, 1/10] := by with_unfolding_all decide

/-- C4: the Normalizer returns the defined "not enough data" result
(none) on every log with fewer than 2 events, and an Extracted Metrics
record on every log with at least 2 events. -/
theorem extractMetrics_insufficient_data (k : Keylog) :
    (k.EventID.length < 2 → extractMetrics k = none) ∧
      (2 ≤ k.EventID.length → (extractMetrics k).isSome) := by
  unfold extractMetrics
  constructor
  · intro h; rw [if_pos h]
  · intro h; rw [if_neg (by omega)]; rfl

/-- C5: the normalization primitive returns exactly 0.5 when sd = 0,
otherwise clamp(((v - mean)/sd)/4 + 0.5, 0, 1); the inverted
normalization is 1 minus it. -/
theorem normalize_matches_spec (v mean sd : ℚ) :
    (sd = 0 → normalize v mean sd = 0.5) ∧
      (sd ≠ 0 → normalize v mean sd = clamp ((v - mean) / sd / 4 + 0.5) 0 1) ∧
      normalizeInverted v mean sd = 1 - normalize v mean sd :=
  ⟨fun h => by rw [normalize, if_pos h], fun h => by rw [normalize, if_neg h], rfl⟩

set_option maxRecDepth 2500 in
/-- C2 counterexample: on c2Log the burst boundary falls at event 2
(gap 2400 ms ≥ 2000 ms), whose own timestamp is 2500 ms; the claimed
duration (boundary timestamp − burst start)/1000 is 2.5 s, yet the
Normalizer records [0.1] — the 2.5 s value is recorded nowhere. -/
theorem burst_uses_prev_timestamp_cex :
    (2000 ≤ ikiAt c2Log 2 ∧ eventTime c2Log 2 = 2500) ∧
      (eventTime c2Log 2 - (initLoopState c2Log).currentBurstStartTime) / 1000 = 5/2 ∧
      burstsOf c2Log = [1/10] ∧ ¬ (5/2 : ℚ) ∈ burstsOf c2Log :=
  ⟨⟨by with_unfolding_all decide, by decide⟩, by with_unfolding_all decide,
    by with_unfolding_all decide, by with_unfolding_all decide⟩

/-- C2 (amended): on a burst boundary at event i the recorded duration is
the previous event's timestamp (EventTime[i-1], the last event of the
burst) minus the burst-start timestamp, in seconds, recorded only if
positive; burst-start is then reset to the boundary event's own
timestamp. -/
theorem burst_boundary_records_prev_timestamp (k : Keylog) (s : LoopState) (i : ℕ)
    (hb : activityAt k i = "Remove/Cut" ∨ outputAt k i = "Backspace" ∨ 2000 ≤ ikiAt k i) :
    (loopStep k s i).currentBurstStartTime = eventTime k i ∧
      (loopStep k s i).bursts =
        if 0 < (eventTime k (i - 1) - s.currentBurstStartTime) / 1000
        then s.bursts ++ [(eventTime k (i - 1) - s.currentBurstStartTime) / 1000]
        else s.bursts := by
  unfold loopStep
  rw [if_pos hb]
  exact ⟨rfl, by rw [preBurstState_bursts, preBurstState_start]⟩

/-- Witness for the amended C2 at the boundary event of c2Log. -/
theorem burst_boundary_records_prev_timestamp_witness :
    (activityAt c2Log 2 = "Remove/Cut" ∨ outputAt c2Log 2 = "Backspace" ∨
        2000 ≤ ikiAt c2Log 2) ∧
      ((loopStep c2Log (initLoopState c2Log) 2).currentBurstStartTime = eventTime c2Log 2 ∧
        (loopStep c2Log (initLoopState c2Log) 2).bursts =
          if 0 < (eventTime c2Log 1 - (initLoopState c2Log).currentBurstStartTime) / 1000
          then (initLoopState c2Log).bursts ++
            [(eventTime c2Log 1 - (initLoopState c2Log).currentBurstStartTime) / 1000]
          else (initLoopState c2Log).bursts) :=
  ⟨by with_unfolding_all decide,
    burst_boundary_records_prev_timestamp c2Log (initLoopState c2Log) 2
      (by with_unfolding_all decide)⟩

/-- C6: with non-negative BASE_JUMP and CHAR_SCALE and a non-negative
paste character count, the pasteScore component is monotonically
non-decreasing in the paste event count and never exceeds 0.40. -/
theorem pasteScore_monotone_and_capped (m : Metrics) (w : Weights) (c : Option CalibrationData)
    (p₁ p₂ : ℚ) (hp : p₁ ≤ p₂) (hpc : 0 ≤ m.paste_characters)
    (hbj : 0 ≤ w.paste.BASE_JUMP) (hcs : 0 ≤ w.paste.CHAR_SCALE) :
    (calculateDualAxis { m with paste_events := p₁ } w c).components.pasteScore ≤
        (calculateDualAxis { m with paste_events := p₂ } w c).components.pasteScore ∧
      (calculateDualAxis { m with paste_events := p₂ } w c).components.pasteScore ≤ 0.40 := by
  have hK : 0 ≤ w.paste.BASE_JUMP * (1 + m.paste_characters * w.paste.CHAR_SCALE) := by
    nlinarith [mul_nonneg hpc hcs]
  constructor
  · refine clamp_mono _ _ _ _ ?_
    calc p₁ * w.paste.BASE_JUMP * (1 + m.paste_characters * w.paste.CHAR_SCALE)
        = p₁ * (w.paste.BASE_JUMP * (1 + m.paste_characters * w.paste.CHAR_SCALE)) := by ring
      _ ≤ p₂ * (w.paste.BASE_JUMP * (1 + m.paste_characters * w.paste.CHAR_SCALE)) :=
          mul_le_mul_of_nonneg_right hp hK
      _ = p₂ * w.paste.BASE_JUMP * (1 + m.paste_characters * w.paste.CHAR_SCALE) := by ring
  · exact clamp_le_hi _ _ _ (by norm_num)

/-- Witness for C6 at a concrete metrics record, DEFAULT_WEIGHTS and
paste event counts 1 ≤ 2. -/
theorem pasteScore_monotone_and_capped_witness :
    ((1 : ℚ) ≤ 2 ∧ 0 ≤ exMetricsC6.paste_characters ∧
        0 ≤ DEFAULT_WEIGHTS.paste.BASE_JUMP ∧ 0 ≤ DEFAULT_WEIGHTS.paste.CHAR_SCALE) ∧
      ((calculateDualAxis { exMetricsC6 with paste_events := 1 }
            DEFAULT_WEIGHTS none).components.pasteScore ≤
          (calculateDualAxis { exMetricsC6 with paste_events := 2 }
            DEFAULT_WEIGHTS none).components.pasteScore ∧
        (calculateDualAxis { exMetricsC6 with paste_events := 2 }
            DEFAULT_WEIGHTS none).components.pasteScore ≤ 0.40) :=
  ⟨⟨by norm_num, by with_unfolding_all decide, by with_unfolding_all decide,
      by with_unfolding_all decide⟩,
    pasteScore_monotone_and_capped exMetricsC6 DEFAULT_WEIGHTS none 1 2 (by norm_num)
      (by with_unfolding_all decide) (by with_unfolding_all decide)
      (by with_unfolding_all decide)⟩

set_option maxRecDepth 2500 in
/-- C7 counterexample: c7Log has 2 events and a resolved final text of
exactly 200 characters, yet the Calibrator returns the "not ready"
result (its calibration slice has empty snapshots, hence a zero typing
rate). -/
theorem calibration_at_200_not_ready_cex :
    2 ≤ c7Log.EventID.length ∧ (resolvedFinalTextCalib c7Log).length = 200 ∧
      getCalibrationData c7Log = none :=
  ⟨by decide, by decide, by with_unfolding_all decide⟩

/-- C7 (amended): the Calibrator returns "not ready" whenever the
resolved final text has fewer than 200 characters (in particular at 199),
and with at least 200 characters it returns a defined baseline exactly
when the Normalizer on the calibration slice yields metrics with a
nonzero typing rate. -/
theorem getCalibrationData_some_iff (k : Keylog) :
    (getCalibrationData k).isSome ↔
      (2 ≤ k.EventID.length ∧ 200 ≤ (resolvedFinalTextCalib k).length ∧
        ∃ m, extractMetrics (calibSlice k) = some m ∧ m.characters_per_minute ≠ 0) := by
  unfold getCalibrationData
  split_ifs with h1 h2
  · simp only [Option.isSome_none, Bool.false_eq_true, false_iff]
    rintro ⟨h, -⟩; omega
  · simp only [Option.isSome_none, Bool.false_eq_true, false_iff]
    rintro ⟨-, h, -⟩; omega
  · cases hm : extractMetrics (calibSlice k) with
    | none => simp [hm]
    | some bm =>
      dsimp only
      split_ifs with h3
      · simp [hm, h3]
      · simp only [Option.isSome_some, true_iff]
        exact ⟨by omega, by omega, bm, rfl, h3⟩

/-- C8: every baseline the Calibrator returns has each spread equal to
the corresponding personal mean times (benchmark sd / benchmark mean);
in particular a personal typing-rate mean of 100 gives spread 37.5. -/
theorem calibration_spread_scales_cv (k : Keylog) (b : CalibrationData)
    (hb : getCalibrationData k = some b) :
    b.cpm_sd = b.cpm_mean *
        (BENCHMARKS.characters_per_minute.sd / BENCHMARKS.characters_per_minute.mean) ∧
      b.rburst_sd = b.rburst_mean *
        (BENCHMARKS.rburst_length_median.sd / BENCHMARKS.rburst_length_median.mean) ∧
      (b.cpm_mean = 100 → b.cpm_sd = 37.5) := by
  unfold getCalibrationData at hb
  split_ifs at hb
  cases hm : extractMetrics (calibSlice k) with
  | none => rw [hm] at hb; exact absurd hb (by simp)
  | some bm =>
    rw [hm] at hb
    dsimp only at hb
    split_ifs at hb
    have hbb := Option.some.inj hb
    subst hbb
    refine ⟨rfl, rfl, fun h => ?_⟩
    have : bm.characters_per_minute = 100 := h
    rw [baselineFrom, this]
    norm_num [BENCHMARKS]

set_option maxRecDepth 2500 in
/-- Witness for C8: on c8Log (200 characters in 120 s) the Calibrator
returns the baseline with cpm_mean = 100, whose spread the theorem
yields; 100 × (75/200) = 37.5. -/
theorem calibration_spread_scales_cv_witness :
    getCalibrationData c8Log = some c8Baseline ∧
      (c8Baseline.cpm_sd = c8Baseline.cpm_mean *
          (BENCHMARKS.characters_per_minute.sd / BENCHMARKS.characters_per_minute.mean) ∧
        c8Baseline.rburst_sd = c8Baseline.rburst_mean *
          (BENCHMARKS.rburst_length_median.sd / BENCHMARKS.rburst_length_median.mean) ∧
        (c8Baseline.cpm_mean = 100 → c8Baseline.cpm_sd = 37.5)) :=
  ⟨by with_unfolding_all decide,
    calibration_spread_scales_cv c8Log c8Baseline (by with_unfolding_all decide)⟩

theorem heapGet_append_len (h : List Keylog) (x : Keylog) :
    heapGet (h ++ [x]) h.length = x := by
  unfold heapGet
  induction h with
  | nil => rfl
  | cons a t ih => simp [ih]

theorem set_append_len (h : List Keylog) (x y : Keylog) :
    (h ++ [x]).set h.length y = h ++ [y] := by
  induction h with
  | nil => rfl
  | cons a t ih => simp [ih]

theorem heapGet_append_lt (h : List Keylog) (l : List Keylog) (r : ℕ) (hr : r < h.length) :
    heapGet (h ++ l) r = heapGet h r := by
  unfold heapGet
  exact List.getD_append h l default r hr

theorem calibHeapAfter_eq (h : List Keylog) (r : ℕ) :
    calibHeapAfter h r = h ++ [calibSlice (heapGet h r)] := by
  unfold calibHeapAfter
  rw [heapGet_append_len, set_append_len, calibSlice]

/-- C9: under the explicit-heap model of the Baseline Calibrator (the
only component that writes at all), the input event log at address r is
unchanged by the call — the slice is a fresh copy at a fresh address and
the single FinalProduct store targets that copy — and the result agrees
with the plain functional Calibrator; the Normalizer and the Scorer are
pure functions of their arguments (extractMetrics, calculateDualAxis). -/
theorem calibrator_leaves_input_log_unchanged (h : List Keylog) (r : ℕ) :
    heapGet (getCalibrationDataHeap h r).2 r = heapGet h r ∧
      (getCalibrationDataHeap h r).1 = getCalibrationData (heapGet h r) := by
  have hr2 : ∀ hh : ¬ (heapGet h r).EventID.length < 2, r < h.length := by
    intro hh
    by_contra hge
    have hd : heapGet h r = default := by
      unfold heapGet
      exact List.getD_eq_default _ _ (by omega)
    rw [hd] at hh
    exact hh (by decide)
  unfold getCalibrationDataHeap getCalibrationData
  split_ifs with h1 h2
  · exact ⟨rfl, rfl⟩
  · exact ⟨rfl, rfl⟩
  · rw [calibHeapAfter_eq, heapGet_append_len]
    cases hm : extractMetrics (calibSlice (heapGet h r)) with
    | none =>
      exact ⟨heapGet_append_lt _ _ _ (hr2 h1), rfl⟩
    | some bm =>
      dsimp only
      split_ifs with h3
      · exact ⟨heapGet_append_lt _ _ _ (hr2 h1), rfl⟩
      · exact ⟨heapGet_append_lt _ _ _ (hr2 h1), rfl⟩

theorem findCalibIndex_eq_none (l : List String) (i : ℕ) (h : ∀ s ∈ l, s.length < 200) :
    findCalibIndex l i = none := by
  induction l generalizing i with
  | nil => rfl
  | cons s rest ih =>
    unfold findCalibIndex
    rw [if_neg]
    · exact ih _ (fun t ht => h t (List.mem_cons_of_mem _ ht))
    · rintro ⟨-, h200⟩
      have := h s (List.mem_cons_self _ _)
      omega

/-- C10: on a well-formed log whose resolved final text reaches 200
characters while no snapshot does, the scan never fires, calibEventIndex
stays at the event count, and the calibration slice is the entire log
with only FinalProduct rewritten to the log's own last snapshot. -/
theorem calibSlice_whole_log_when_no_snapshot_reaches (k : Keylog)
    (hev : 2 ≤ k.EventID.length)
    (hfin : 200 ≤ (resolvedFinalTextCalib k).length)
    (hshort : ∀ s ∈ k.TextContent, s.length < 200)
    (hT : k.EventTime.length = k.EventID.length)
    (hO : k.Output.length = k.EventID.length)
    (hC : k.CursorPosition.length = k.EventID.length)
    (hS : k.TextContent.length = k.EventID.length)
    (hA : k.Activity.elim True (fun l => l.length = k.EventID.length))
    (hX : k.TextChange.elim True (fun l => l.length = k.EventID.length)) :
    calibIndex k = k.EventID.length ∧
      calibSlice k = { k with FinalProduct := some (lastSnapshot k) } := by
  have hidx : calibIndex k = k.EventID.length := by
    unfold calibIndex
    rw [findCalibIndex_eq_none _ _ hshort]
  have hcopy : calibSliceCopy k = k := by
    unfold calibSliceCopy
    rw [hidx]
    obtain ⟨eid, et, act, out, tc, cp, tcont, fp⟩ := k
    dsimp only at hT hO hC hS hA hX ⊢
    congr 1
    · exact List.take_length eid
    · exact List.take_of_length_le (le_of_eq hT)
    · cases act with
      | none => rfl
      | some l =>
        have hA2 : l.length = eid.length := hA
        simp [List.take_of_length_le (le_of_eq hA2)]
    · exact List.take_of_length_le (le_of_eq hO)
    · cases tc with
      | none => rfl
      | some l =>
        have hX2 : l.length = eid.length := hX
        simp [List.take_of_length_le (le_of_eq hX2)]
    · exact List.take_of_length_le (le_of_eq hC)
    · exact List.take_of_length_le (le_of_eq hS)
  exact ⟨hidx, by rw [calibSlice, hcopy]⟩

set_option maxRecDepth 2500 in
/-- Witness for C10 at c10Log, whose FinalProduct has 200 characters
while its snapshots are "a" and "ab". -/
theorem calibSlice_whole_log_when_no_snapshot_reaches_witness :
    (2 ≤ c10Log.EventID.length ∧ 200 ≤ (resolvedFinalTextCalib c10Log).length ∧
        (∀ s ∈ c10Log.TextContent, s.length < 200) ∧
        c10Log.EventTime.length = c10Log.EventID.length ∧
        c10Log.Output.length = c10Log.EventID.length ∧
        c10Log.CursorPosition.length = c10Log.EventID.length ∧
        c10Log.TextContent.length = c10Log.EventID.length ∧
        c10Log.Activity.elim True (fun l => l.length = c10Log.EventID.length) ∧
        c10Log.TextChange.elim True (fun l => l.length = c10Log.EventID.length)) ∧
      (calibIndex c10Log = c10Log.EventID.length ∧
        calibSlice c10Log = { c10Log with FinalProduct := some (lastSnapshot c10Log) }) :=
  ⟨⟨by decide, by decide, by decide, by decide, by decide, by decide, by decide,
      by exact rfl, by exact rfl⟩,
    calibSlice_whole_log_when_no_snapshot_reaches c10Log (by decide) (by decide)
      (by decide) (by decide) (by decide) (by decide) (by decide)
      (by exact rfl) (by exact rfl)⟩

end KeyAnalyzer
